import Mathlib

/-!
Verification of the XFrameBridge iframe-communication library (src/bridge.ts,
src/types.ts).  The bridge multiplexes request/response and event traffic over
a single postMessage channel.  We embed the message envelope, the validity
predicate, the handler/listener registries, the pending-request registry and
the inbound dispatcher as pure Lean functions and prove the claimed
properties about them.

Modelling conventions:
- JS values, as far as the validity checks observe them, are modelled by
  `JSValue` (string, number, boolean, undefined, null).  Payloads are
  `JSValue`.
- Request handlers and event listeners are identified by natural numbers;
  the behaviour of a request handler is supplied by an interpretation
  function `interp : Nat → JSValue → Except String JSValue` (`Except.error`
  models a thrown/rejected failure, whose message text the code extracts).
- The three registries (`handlers`, `eventHandlers`, `pendingRequests`) are
  JS `Map`s, modelled as association lists with overwrite-on-set semantics.
- A pending-request timer is armed exactly as long as its registry entry
  exists: every code path that deletes an entry also calls `clearTimeout`
  (and the timeout path deletes the entry when it fires), so removal of the
  entry models cancellation of the timer.
- `resolve` / `reject` continuations are modelled by emitted `Outcome`
  events carrying the request identifier.
-/

namespace XFrameBridge

/-- A JS runtime value, to the extent the bridge inspects values. -/
inductive JSValue where
  | jstr (s : String)
  | jnum (n : Int)
  | jbool (b : Bool)
  | jundef
  | jnull
deriving DecidableEq

/-- `typeof v === "string"`. -/
def JSValue.isStr : JSValue → Bool
  | .jstr _ => true
  | _ => false

/-- `typeof v === "number"`. -/
def JSValue.isNum : JSValue → Bool
  | .jnum _ => true
  | _ => false

/-- Protocol identifier to prevent message pollution (bridge.ts line 5). -/
def PROTOCOL_ID : String := "__XFRAME_BRIDGE__"

/- The `MessageType` string enum of types.ts. -/
namespace MT

def REQUEST : String := "REQUEST"

def RESPONSE : String := "RESPONSE"

def EVENT : String := "EVENT"

def ERROR : String := "ERROR"

end MT

/-- A well-typed message envelope, as the library itself constructs and as
declared by the `Message` interface of types.ts.  `data` uses
`JSValue.jundef` for an absent payload. -/
structure Message where
  protocol : String
  id : String
  type : String
  method : Option String
  channel : Option String
  data : JSValue
  error : Option String
  timestamp : Int
deriving DecidableEq

/-- An inbound raw object: the fields that `isValidMessage` checks
(`__protocol__`, `id`, `type`, `timestamp`) may hold arbitrary JS values;
the fields the code reads without a type check are modelled at their
TypeScript-declared types. -/
structure RawMessage where
  protocol : JSValue
  id : JSValue
  type : JSValue
  method : Option String
  channel : Option String
  data : JSValue
  error : Option String
  timestamp : JSValue
deriving DecidableEq

/-- Inbound `event.data`: either an object or some primitive
(non-object, null, undefined ...). -/
inductive RawData where
  | obj (m : RawMessage)
  | prim (v : JSValue)
deriving DecidableEq

/-- `isValidMessage` (bridge.ts lines 330-339): the message is a truthy
object, its marker equals `PROTOCOL_ID`, `id` and `type` are strings (any
strings), and `timestamp` is a number. -/
def isValidMessage : RawData → Bool
  | .prim _ => false
  | .obj m =>
      (m.protocol == .jstr PROTOCOL_ID) &&
      m.id.isStr && m.type.isStr && m.timestamp.isNum

/-- Validity as claim C4 words it (following the spec text, for
comparison with `isValidMessage`): exact marker, non-empty string
identifier, recognized kind, numeric timestamp. -/
def specValidMessage : RawData → Bool
  | .prim _ => false
  | .obj m =>
      (m.protocol == .jstr PROTOCOL_ID) &&
      (match m.id with | .jstr s => s != "" | _ => false) &&
      (match m.type with
       | .jstr t => (t == MT.REQUEST) || (t == MT.RESPONSE) ||
                    (t == MT.EVENT) || (t == MT.ERROR)
       | _ => false) &&
      (match m.timestamp with | .jnum _ => true | _ => false)

/- ----------------------------------------------------------------- -/
/- Association-list model of JS `Map`.                                -/
/- ----------------------------------------------------------------- -/

/-- `Map.get`: first binding for the key. -/
def mapLookup {α : Type} (k : String) : List (String × α) → Option α
  | [] => none
  | (k2, v) :: rest => if k2 = k then some v else mapLookup k rest

/-- `Map.set`: overwrite the binding in place, or append a fresh one. -/
def mapSet {α : Type} (k : String) (v : α) : List (String × α) → List (String × α)
  | [] => [(k, v)]
  | (k2, v2) :: rest =>
      if k2 = k then (k, v) :: rest else (k2, v2) :: mapSet k v rest

/-- `Map.delete`. -/
def mapDelete {α : Type} (k : String) (l : List (String × α)) : List (String × α) :=
  l.filter (fun kv => kv.1 != k)

/-- `String.prototype.startsWith`, on the character lists. -/
def strStartsWith (s pre : String) : Bool :=
  pre.data.isPrefixOf s.data

/- ----------------------------------------------------------------- -/
/- Bridge configuration and state.                                    -/
/- ----------------------------------------------------------------- -/

/-- The `BridgeOptions` interface of types.ts (all fields optional). -/
structure BridgeOptions where
  targetOrigin : Option String := none
  timeout : Option Nat := none
  debug : Option Bool := none
deriving DecidableEq

/-- The option fields of a constructed bridge instance, after the
constructor applied its defaults. -/
structure BridgeConfig where
  targetOrigin : String
  timeout : Nat
  debug : Bool
  channelName : Option String
deriving DecidableEq

/-- The constructor defaulting (bridge.ts lines 25-28).  JS `||` picks the
default whenever the supplied value is falsy, so the empty string, 0 and
false all fall back to the defaults. -/
def mkConfig (opts : BridgeOptions) (channelName : Option String) : BridgeConfig :=
  { targetOrigin :=
      match opts.targetOrigin with
      | some s => if s = "" then "*" else s
      | none => "*"
    timeout :=
      match opts.timeout with
      | some t => if t = 0 then 30000 else t
      | none => 30000
    debug :=
      match opts.debug with
      | some b => b
      | none => false
    channelName := channelName }

/-- `channel(name)` (bridge.ts lines 344-356): a derived instance with the
resolved options of its parent and the given channel name, sharing the
root state. -/
def channel (cfg : BridgeConfig) (name : String) : BridgeConfig :=
  mkConfig
    { targetOrigin := some cfg.targetOrigin
      timeout := some cfg.timeout
      debug := some cfg.debug }
    (some name)

/-- An entry of `pendingRequests` (bridge.ts line 18). -/
structure PendingRecord where
  timer : Nat
  channel : Option String
deriving DecidableEq

/-- The shared mutable registries owned by the root bridge. -/
structure BridgeState where
  handlers : List (String × Nat)
  eventHandlers : List (String × List Nat)
  pendingRequests : List (String × PendingRecord)
deriving DecidableEq

/-- The state with all three registries empty. -/
def emptyState : BridgeState := { handlers := [], eventHandlers := [], pendingRequests := [] }

/-- A completion event for a pending request (invocation of the stored
`resolve` or `reject` continuation). -/
inductive OutcomeKind where
  | resolved (v : JSValue)
  | rejected (e : String)
deriving DecidableEq

/-- An outcome, tagged by the request identifier it completes. -/
structure Outcome where
  id : String
  kind : OutcomeKind
deriving DecidableEq

/- ----------------------------------------------------------------- -/
/- Registry keys and the public registration operations.              -/
/- ----------------------------------------------------------------- -/

/-- The key computation of `getHandlerKey` once the effective channel is
known: `ch ? ch + ":" + method : method`, where both `undefined` and the
empty string are falsy. -/
def getHandlerKeyCh : Option String → String → String
  | some c, method => if c = "" then method else c ++ ":" ++ method
  | none, method => method

/-- `getHandlerKey(method, channel?)` (bridge.ts lines 361-364): an
explicitly supplied channel wins over the instance channel name `self`. -/
def getHandlerKey (self : Option String) (method : String) (ch : Option String) : String :=
  match ch with
  | some c => getHandlerKeyCh (some c) method
  | none => getHandlerKeyCh self method

/-- `on(method, handler)` (bridge.ts lines 86-90) on an instance whose
channel name is `self`: overwrite registration.  (The source name `on` is
a reserved token in Lean, hence the suffix.) -/
def onMethod (self : Option String) (st : BridgeState) (method : String) (h : Nat) : BridgeState :=
  { st with handlers := mapSet (getHandlerKey self method none) h st.handlers }

/-- `listen(event, handler)` (bridge.ts lines 113-120): insert into the
listener set for the key, creating it on first use. -/
def listen (self : Option String) (st : BridgeState) (event : String) (l : Nat) : BridgeState :=
  let key := getHandlerKey self event none
  match mapLookup key st.eventHandlers with
  | none => { st with eventHandlers := mapSet key [l] st.eventHandlers }
  | some ls =>
      { st with eventHandlers :=
          mapSet key (if l ∈ ls then ls else ls ++ [l]) st.eventHandlers }

/-- `off(event, handler?)` (bridge.ts lines 125-143). -/
def off (self : Option String) (st : BridgeState) (event : String) (h : Option Nat) : BridgeState :=
  let key := getHandlerKey self event none
  match h with
  | none => { st with eventHandlers := mapDelete key st.eventHandlers }
  | some l =>
      match mapLookup key st.eventHandlers with
      | none => st
      | some ls =>
          let ls2 := ls.filter (fun x => x != l)
          if ls2 = [] then { st with eventHandlers := mapDelete key st.eventHandlers }
          else { st with eventHandlers := mapSet key ls2 st.eventHandlers }

/- ----------------------------------------------------------------- -/
/- Outbound construction.                                             -/
/- ----------------------------------------------------------------- -/

/-- `request(method, data)` (bridge.ts lines 54-81): register the pending
record (with the fresh identifier, the armed timer and the issuing channel
name) and post the REQUEST envelope.  The identifier, the timer handle and
the clock reading are supplied by the environment. -/
def request (cfg : BridgeConfig) (st : BridgeState) (method : String) (d : JSValue)
    (id : String) (timer : Nat) (now : Int) : BridgeState × Message :=
  ({ st with pendingRequests :=
       mapSet id { timer := timer, channel := cfg.channelName } st.pendingRequests },
   { protocol := PROTOCOL_ID, id := id, type := MT.REQUEST, method := some method,
     channel := cfg.channelName, data := d, error := none, timestamp := now })

/-- `emit(event, data)` (bridge.ts lines 95-108). -/
def emit (cfg : BridgeConfig) (event : String) (d : JSValue) (id : String) (now : Int) : Message :=
  { protocol := PROTOCOL_ID, id := id, type := MT.EVENT, method := some event,
    channel := cfg.channelName, data := d, error := none, timestamp := now }

/-- `sendResponse(id, data, channel)` (bridge.ts lines 291-302). -/
def sendResponse (id : String) (d : JSValue) (ch : Option String) (now : Int) : Message :=
  { protocol := PROTOCOL_ID, id := id, type := MT.RESPONSE, method := none,
    channel := ch, data := d, error := none, timestamp := now }

/-- `sendError(id, error, channel)` (bridge.ts lines 307-318). -/
def sendError (id : String) (e : String) (ch : Option String) (now : Int) : Message :=
  { protocol := PROTOCOL_ID, id := id, type := MT.ERROR, method := none,
    channel := ch, data := JSValue.jundef, error := some e, timestamp := now }

/-- The timeout callback armed by `request` (bridge.ts lines 67-70): when
the timer fires, the entry is deleted and the request rejected with a
timeout error naming the method. -/
def requestTimeout (st : BridgeState) (id : String) (method : String) :
    BridgeState × List Outcome :=
  ({ st with pendingRequests := mapDelete id st.pendingRequests },
   [{ id := id, kind := .rejected ("Request timeout: " ++ method) }])

/- ----------------------------------------------------------------- -/
/- Inbound dispatch.                                                  -/
/- ----------------------------------------------------------------- -/

/-- `handleRequest(message)` (bridge.ts lines 223-238) running on the root
instance (channel name `self`): look the handler up under the
message-qualified key and reply with exactly one RESPONSE or ERROR
envelope.  JS template literals render an absent method as the string
`undefined`. -/
def handleRequest (interp : Nat → JSValue → Except String JSValue) (self : Option String)
    (st : BridgeState) (msg : Message) (now : Int) : List Message :=
  let m := msg.method.getD "undefined"
  let key := getHandlerKey self m msg.channel
  match mapLookup key st.handlers with
  | none => [sendError msg.id ("No handler for method: " ++ m) msg.channel now]
  | some hid =>
      match interp hid msg.data with
      | .ok r => [sendResponse msg.id r msg.channel now]
      | .error e => [sendError msg.id e msg.channel now]

/-- `handleResponse(message)` (bridge.ts lines 243-266): unknown identifier
is a no-op; a channel mismatch is logged and discarded; otherwise the
timer is cleared, the entry removed and the continuation invoked (an ERROR
envelope with a falsy error text rejects with the text Unknown error). -/
def handleResponse (st : BridgeState) (msg : Message) : BridgeState × List Outcome :=
  match mapLookup msg.id st.pendingRequests with
  | none => (st, [])
  | some pending =>
      if pending.channel ≠ msg.channel then (st, [])
      else
        ({ st with pendingRequests := mapDelete msg.id st.pendingRequests },
         if msg.type = MT.ERROR then
           [{ id := msg.id,
              kind := .rejected
                (match msg.error with
                 | some e => if e = "" then "Unknown error" else e
                 | none => "Unknown error") }]
         else [{ id := msg.id, kind := .resolved msg.data }])

/-- `handleEvent(message)` (bridge.ts lines 271-286): the listeners invoked
for the message (each invocation has its failures caught and logged, so
the set of invoked listeners is the whole stored set). -/
def handleEvent (self : Option String) (st : BridgeState) (msg : Message) : List Nat :=
  let m := msg.method.getD "undefined"
  let key := getHandlerKey self m msg.channel
  match mapLookup key st.eventHandlers with
  | none => []
  | some ls => ls

/-- Origin filter of `handleMessage` (bridge.ts line 195). -/
def originOk (cfg : BridgeConfig) (origin : String) : Bool :=
  (cfg.targetOrigin == "*") || (origin == cfg.targetOrigin)

/-- The full observable effect of delivering one raw inbound message. -/
structure InboundEffect where
  state : BridgeState
  outbound : List Message
  outcomes : List Outcome
  invokedListeners : List Nat
deriving DecidableEq

/-- The effect of a discarded message: nothing at all happens. -/
def noEffect (st : BridgeState) : InboundEffect :=
  { state := st, outbound := [], outcomes := [], invokedListeners := [] }

/-- The switch of `handleMessage` on the message kind (bridge.ts lines
206-217): REQUEST replies over the wire, RESPONSE and ERROR complete
pending requests, EVENT fans out to listeners, anything else falls
through the switch with no effect. -/
def handleParsed (interp : Nat → JSValue → Except String JSValue) (cfg : BridgeConfig)
    (st : BridgeState) (msg : Message) (now : Int) : InboundEffect :=
  if msg.type = MT.REQUEST then
    { state := st, outbound := handleRequest interp cfg.channelName st msg now,
      outcomes := [], invokedListeners := [] }
  else if msg.type = MT.RESPONSE ∨ msg.type = MT.ERROR then
    { state := (handleResponse st msg).1, outbound := [],
      outcomes := (handleResponse st msg).2, invokedListeners := [] }
  else if msg.type = MT.EVENT then
    { state := st, outbound := [], outcomes := [],
      invokedListeners := handleEvent cfg.channelName st msg }
  else noEffect st

/-- `handleMessage(event)` (bridge.ts lines 194-218) on the root instance:
origin filter, then structural validation (after which the checked fields
are known to be a string identifier, a string kind and a numeric
timestamp, and the code casts `event.data as Message`), then routing by
kind. -/
def handleMessage (interp : Nat → JSValue → Except String JSValue) (cfg : BridgeConfig)
    (st : BridgeState) (origin : String) (raw : RawData) (now : Int) : InboundEffect :=
  if ¬ originOk cfg origin then noEffect st
  else if ¬ isValidMessage raw then noEffect st
  else
    match raw with
    | .prim _ => noEffect st
    | .obj rm =>
        match rm.id, rm.type, rm.timestamp with
        | .jstr i, .jstr t, .jnum ts =>
            handleParsed interp cfg st
              { protocol := PROTOCOL_ID, id := i, type := t, method := rm.method,
                channel := rm.channel, data := rm.data, error := rm.error,
                timestamp := ts } now
        | _, _, _ => noEffect st

/- ----------------------------------------------------------------- -/
/- Teardown.                                                          -/
/- ----------------------------------------------------------------- -/

/-- `destroy()` on a root bridge (bridge.ts lines 149-163): every pending
request has its timer cleared and is rejected with the destruction error,
then all three registries are cleared. -/
def destroyRoot (st : BridgeState) : BridgeState × List Outcome :=
  (emptyState,
   st.pendingRequests.map (fun kv => { id := kv.1, kind := .rejected "Bridge destroyed" }))

/-- `destroy()` on a channel instance named `name` (bridge.ts lines
164-188): remove every handler and listener key starting with `name:`,
and reject (with timer cleared and entry removed) exactly the pending
requests whose recorded channel equals `name`. -/
def destroyChannel (name : String) (st : BridgeState) : BridgeState × List Outcome :=
  let pre := name ++ ":"
  ({ handlers := st.handlers.filter (fun kv => !(strStartsWith kv.1 pre)),
     eventHandlers := st.eventHandlers.filter (fun kv => !(strStartsWith kv.1 pre)),
     pendingRequests := st.pendingRequests.filter (fun kv => kv.2.channel != some name) },
   (st.pendingRequests.filter (fun kv => kv.2.channel == some name)).map
     (fun kv => { id := kv.1, kind := .rejected "Channel destroyed" }))

/- ----------------------------------------------------------------- -/
/- Shared concrete objects for witnesses.                             -/
/- ----------------------------------------------------------------- -/

/-- An interpretation under which every handler echoes its payload. -/
def interpEcho : Nat → JSValue → Except String JSValue := fun _ v => Except.ok v

/-- A root configuration with all options left at their defaults. -/
def cfg0 : BridgeConfig := mkConfig {} none

/-- A raw envelope with the exact marker, the empty string identifier,
kind REQUEST, a method and a numeric timestamp. -/
def c4EmptyIdRaw : RawData :=
  RawData.obj
    { protocol := .jstr PROTOCOL_ID, id := .jstr "", type := .jstr "REQUEST",
      method := some "m", channel := none, data := .jundef, error := none,
      timestamp := .jnum 0 }

/-- A validated envelope whose kind is the unrecognized string BOGUS. -/
def c4BogusRaw : RawData :=
  RawData.obj
    { protocol := .jstr PROTOCOL_ID, id := .jstr "x", type := .jstr "BOGUS",
      method := none, channel := none, data := .jundef, error := none,
      timestamp := .jnum 0 }

/-- A state with one root pending request, one pending request each on
channels a and b, and handlers registered for the bare method "m" and
its a- and b-qualified keys. -/
def c6st : BridgeState :=
  { handlers := [("m", 1), ("a:m", 2), ("b:m", 3)],
    eventHandlers := [],
    pendingRequests :=
      [("i1", { timer := 1, channel := none }),
       ("i2", { timer := 2, channel := some "a" }),
       ("i3", { timer := 3, channel := some "b" })] }

/- ----------------------------------------------------------------- -/
/- Association-list lemmas.                                           -/
/- ----------------------------------------------------------------- -/

theorem mapLookup_set_self {α : Type} (k : String) (v : α) (l : List (String × α)) :
    mapLookup k (mapSet k v l) = some v := by
  induction l with
  | nil => simp [mapSet, mapLookup]
  | cons hd tl ih =>
      obtain ⟨k2, v2⟩ := hd
      by_cases h : k2 = k
      · simp [mapSet, h, mapLookup]
      · simp [mapSet, h, mapLookup, ih]

theorem mapLookup_set_ne {α : Type} (k k2 : String) (v : α) (l : List (String × α))
    (h : k2 ≠ k) : mapLookup k (mapSet k2 v l) = mapLookup k l := by
  induction l with
  | nil => simp [mapSet, mapLookup, h]
  | cons hd tl ih =>
      obtain ⟨k3, v3⟩ := hd
      by_cases h3 : k3 = k2
      · subst h3
        simp [mapSet, mapLookup, h]
      · simp [mapSet, h3, mapLookup, ih]

theorem mapLookup_delete_self {α : Type} (k : String) (l : List (String × α)) :
    mapLookup k (mapDelete k l) = none := by
  induction l with
  | nil => simp [mapDelete, mapLookup]
  | cons hd tl ih =>
      obtain ⟨k2, v2⟩ := hd
      by_cases h : k2 = k
      · simpa [mapDelete, h] using ih
      · simpa [mapDelete, h, mapLookup] using ih

theorem mapLookup_delete_ne {α : Type} (k k2 : String) (l : List (String × α))
    (h : k2 ≠ k) : mapLookup k (mapDelete k2 l) = mapLookup k l := by
  induction l with
  | nil => simp [mapDelete, mapLookup]
  | cons hd tl ih =>
      obtain ⟨k3, v3⟩ := hd
      by_cases h3 : k3 = k2
      · subst h3
        simpa [mapDelete, List.filter_cons, mapLookup, h] using ih
      · by_cases hk : k3 = k
        · simp [mapDelete, List.filter_cons, h3, mapLookup, hk, Ne.symm h]
        · simpa [mapDelete, List.filter_cons, h3, mapLookup, hk] using ih

theorem mapLookup_filterKey {α : Type} (p : String → Bool) (k : String)
    (l : List (String × α)) :
    mapLookup k (l.filter (fun kv => p kv.1)) =
      (if p k then mapLookup k l else none) := by
  induction l with
  | nil => by_cases h : p k <;> simp [mapLookup, h]
  | cons hd tl ih =>
      obtain ⟨k2, v2⟩ := hd
      by_cases h2 : k2 = k
      · subst h2
        by_cases h : p k2 <;> simp [List.filter_cons, mapLookup, h, ih]
      · by_cases h : p k2 <;> simp [List.filter_cons, mapLookup, h, h2, ih]

theorem mapLookup_eq_none_of_not_mem {α : Type} (k : String) (l : List (String × α))
    (h : k ∉ l.map Prod.fst) : mapLookup k l = none := by
  induction l with
  | nil => rfl
  | cons hd tl ih =>
      obtain ⟨k2, v2⟩ := hd
      simp only [List.map_cons, List.mem_cons] at h
      push_neg at h
      simp [mapLookup, Ne.symm h.1, ih h.2]

theorem mapLookup_filterVal {α : Type} (p : String × α → Bool) (k : String) (v : α)
    (l : List (String × α)) (hnd : (l.map Prod.fst).Nodup)
    (h : mapLookup k l = some v) :
    mapLookup k (l.filter p) = (if p (k, v) then some v else none) := by
  induction l with
  | nil => simp [mapLookup] at h
  | cons hd tl ih =>
      obtain ⟨k2, v2⟩ := hd
      simp only [List.map_cons, List.nodup_cons] at hnd
      by_cases h2 : k2 = k
      · subst h2
        have hv : v2 = v := by simpa [mapLookup] using h
        subst hv
        by_cases hp : p (k2, v2)
        · simp [List.filter_cons, hp, mapLookup]
        · have hnone : mapLookup k2 (tl.filter p) = none := by
            refine mapLookup_eq_none_of_not_mem _ _ ?_
            intro hmem
            exact hnd.1 (by
              rcases List.mem_map.mp hmem with ⟨kv, hkv, hfst⟩
              exact List.mem_map.mpr ⟨kv, List.mem_of_mem_filter hkv, hfst⟩)
          simp [List.filter_cons, hp, hnone]
      · simp only [mapLookup, if_neg h2] at h
        by_cases hp : p (k2, v2) <;>
          simp [List.filter_cons, hp, mapLookup, h2, ih hnd.2 h]

/- ----------------------------------------------------------------- -/
/- C2                                                                 -/
/- ----------------------------------------------------------------- -/

/-- C2: every valid inbound Request produces exactly one reply envelope:
a Response carrying the handler result on success, an Error carrying the
failure text when the handler fails, and an Error naming the requested
method when no handler is registered under the qualified key.  The
dispatch function is total, so request handling never throws locally
instead of replying. -/
theorem c2_exactly_one_reply (interp : Nat → JSValue → Except String JSValue)
    (cfg : BridgeConfig) (st : BridgeState) (msg : Message) (now : Int)
    (m : String) (hm : msg.method = some m) :
    ∃ reply : Message,
      handleRequest interp cfg.channelName st msg now = [reply] ∧
      ((mapLookup (getHandlerKey cfg.channelName m msg.channel) st.handlers = none ∧
          reply = sendError msg.id ("No handler for method: " ++ m) msg.channel now) ∨
       (∃ hid r, mapLookup (getHandlerKey cfg.channelName m msg.channel) st.handlers = some hid ∧
          interp hid msg.data = Except.ok r ∧
          reply = sendResponse msg.id r msg.channel now) ∨
       (∃ hid e, mapLookup (getHandlerKey cfg.channelName m msg.channel) st.handlers = some hid ∧
          interp hid msg.data = Except.error e ∧
          reply = sendError msg.id e msg.channel now)) := by
  cases hl : mapLookup (getHandlerKey cfg.channelName m msg.channel) st.handlers with
  | none =>
      exact ⟨sendError msg.id ("No handler for method: " ++ m) msg.channel now,
        by simp [handleRequest, hm, hl], Or.inl ⟨rfl, rfl⟩⟩
  | some hid =>
      cases hr : interp hid msg.data with
      | ok r =>
          exact ⟨sendResponse msg.id r msg.channel now,
            by simp [handleRequest, hm, hl, hr], Or.inr (Or.inl ⟨hid, r, rfl, hr, rfl⟩)⟩
      | error e =>
          exact ⟨sendError msg.id e msg.channel now,
            by simp [handleRequest, hm, hl, hr], Or.inr (Or.inr ⟨hid, e, rfl, hr, rfl⟩)⟩

/-- Witness for C2 at a concrete input: no handler registered, the single
reply is the Error naming the method. -/
theorem c2_exactly_one_reply_witness :
    ∃ reply : Message,
      handleRequest interpEcho cfg0.channelName emptyState
        ((request cfg0 emptyState "ping" JSValue.jnull "id1" 4 0).2) 0 = [reply] ∧
      ((mapLookup (getHandlerKey cfg0.channelName "ping"
            ((request cfg0 emptyState "ping" JSValue.jnull "id1" 4 0).2).channel) emptyState.handlers = none ∧
          reply = sendError "id1" ("No handler for method: " ++ "ping")
            ((request cfg0 emptyState "ping" JSValue.jnull "id1" 4 0).2).channel 0) ∨
       (∃ hid r, mapLookup (getHandlerKey cfg0.channelName "ping"
            ((request cfg0 emptyState "ping" JSValue.jnull "id1" 4 0).2).channel) emptyState.handlers = some hid ∧
          interpEcho hid ((request cfg0 emptyState "ping" JSValue.jnull "id1" 4 0).2).data = Except.ok r ∧
          reply = sendResponse "id1" r ((request cfg0 emptyState "ping" JSValue.jnull "id1" 4 0).2).channel 0) ∨
       (∃ hid e, mapLookup (getHandlerKey cfg0.channelName "ping"
            ((request cfg0 emptyState "ping" JSValue.jnull "id1" 4 0).2).channel) emptyState.handlers = some hid ∧
          interpEcho hid ((request cfg0 emptyState "ping" JSValue.jnull "id1" 4 0).2).data = Except.error e ∧
          reply = sendError "id1" e ((request cfg0 emptyState "ping" JSValue.jnull "id1" 4 0).2).channel 0)) := by
  have hm : ((request cfg0 emptyState "ping" JSValue.jnull "id1" 4 0).2).method = some "ping" := rfl
  simpa using c2_exactly_one_reply interpEcho cfg0 emptyState
    ((request cfg0 emptyState "ping" JSValue.jnull "id1" 4 0).2) 0 "ping" hm

/- ----------------------------------------------------------------- -/
/- C3                                                                 -/
/- ----------------------------------------------------------------- -/

/-- C3: a request with no reply before the timeout is rejected with a
timeout error naming the method, its correlation entry is removed when
the timer fires, and any later Response or Error envelope carrying that
identifier is a complete no-op: the state is unchanged and no further
outcome fires, so at most one of resolution, rejection and timeout ever
happens for one identifier. -/
theorem c3_timeout_removes_entry (cfg : BridgeConfig) (st : BridgeState)
    (m : String) (p : JSValue) (id : String) (tm : Nat) (now : Int) :
    (requestTimeout (request cfg st m p id tm now).1 id m).2 =
      [{ id := id, kind := .rejected ("Request timeout: " ++ m) }] ∧
    mapLookup id (requestTimeout (request cfg st m p id tm now).1 id m).1.pendingRequests
      = none ∧
    (∀ reply : Message, reply.id = id →
      handleResponse (requestTimeout (request cfg st m p id tm now).1 id m).1 reply =
        ((requestTimeout (request cfg st m p id tm now).1 id m).1, [])) := by
  refine ⟨rfl, ?_, ?_⟩
  · simp [requestTimeout, mapLookup_delete_self]
  · intro reply h
    unfold handleResponse
    rw [h]
    simp [requestTimeout, mapLookup_delete_self]

/-- Witness for C3 at a concrete input. -/
theorem c3_timeout_removes_entry_witness :
    (requestTimeout (request cfg0 emptyState "slow" JSValue.jnull "id7" 3 0).1 "id7" "slow").2 =
      [{ id := "id7", kind := .rejected ("Request timeout: " ++ "slow") }] ∧
    mapLookup "id7"
      (requestTimeout (request cfg0 emptyState "slow" JSValue.jnull "id7" 3 0).1
        "id7" "slow").1.pendingRequests = none ∧
    handleResponse
      (requestTimeout (request cfg0 emptyState "slow" JSValue.jnull "id7" 3 0).1 "id7" "slow").1
      (sendResponse "id7" JSValue.jnull none 9) =
      ((requestTimeout (request cfg0 emptyState "slow" JSValue.jnull "id7" 3 0).1
        "id7" "slow").1, []) := by
  obtain ⟨h1, h2, h3⟩ := c3_timeout_removes_entry cfg0 emptyState "slow" JSValue.jnull "id7" 3 0
  exact ⟨h1, h2, h3 (sendResponse "id7" JSValue.jnull none 9) rfl⟩

/- ----------------------------------------------------------------- -/
/- C8                                                                 -/
/- ----------------------------------------------------------------- -/

/-- C8: a Response or Error whose identifier is pending but whose channel
differs from the recorded channel is discarded: the state (including the
registry entry and its armed timer) is unchanged and no outcome fires;
a reply whose identifier is not in the registry is likewise a silent
no-op. -/
theorem c8_mismatch_and_unknown_noop (st : BridgeState) (msg : Message) :
    (∀ rec : PendingRecord, mapLookup msg.id st.pendingRequests = some rec →
        rec.channel ≠ msg.channel → handleResponse st msg = (st, [])) ∧
    (mapLookup msg.id st.pendingRequests = none → handleResponse st msg = (st, [])) := by
  constructor
  · intro rec h hne
    unfold handleResponse
    rw [h]
    simp [hne]
  · intro h
    unfold handleResponse
    rw [h]

/-- Witness for C8 at a concrete input: a pending entry recorded for
channel "a" is untouched by a response carrying channel "b", and a reply
for an unknown identifier does nothing. -/
theorem c8_mismatch_and_unknown_noop_witness :
    handleResponse
      { emptyState with pendingRequests := [("id1", { timer := 1, channel := some "a" })] }
      (sendResponse "id1" JSValue.jnull (some "b") 0) =
      ({ emptyState with pendingRequests := [("id1", { timer := 1, channel := some "a" })] }, []) ∧
    handleResponse emptyState (sendResponse "id9" JSValue.jnull none 0) = (emptyState, []) := by
  constructor
  · exact (c8_mismatch_and_unknown_noop _ _).1 { timer := 1, channel := some "a" }
      (by decide) (by decide)
  · exact (c8_mismatch_and_unknown_noop _ _).2 (by decide)

/- ----------------------------------------------------------------- -/
/- C1                                                                 -/
/- ----------------------------------------------------------------- -/

/-- C1: when the peer holds a handler under the key qualified by the
caller channel and the caller sends `request(m, p)`, the peer replies with
exactly one Response carrying the handler result, and processing that
reply (before the timeout fired, i.e. while the pending entry is still
registered) resolves the caller promise with exactly that result. -/
theorem c1_request_resolves_with_handler_result
    (interp : Nat → JSValue → Except String JSValue)
    (callerCfg : BridgeConfig) (callerSt calleeSt : BridgeState)
    (m : String) (p r : JSValue) (hid : Nat) (id : String) (tm : Nat) (now now2 : Int)
    (hreg : mapLookup (getHandlerKey none m callerCfg.channelName) calleeSt.handlers
      = some hid)
    (hrun : interp hid p = Except.ok r) :
    handleRequest interp none calleeSt (request callerCfg callerSt m p id tm now).2 now2 =
      [sendResponse id r callerCfg.channelName now2] ∧
    handleResponse (request callerCfg callerSt m p id tm now).1
        (sendResponse id r callerCfg.channelName now2) =
      ({ (request callerCfg callerSt m p id tm now).1 with
          pendingRequests :=
            mapDelete id (request callerCfg callerSt m p id tm now).1.pendingRequests },
       [{ id := id, kind := .resolved r }]) := by
  constructor
  · simp [handleRequest, request, hreg, hrun]
  · have hpend : mapLookup id (request callerCfg callerSt m p id tm now).1.pendingRequests
        = some { timer := tm, channel := callerCfg.channelName } := by
      simp [request, mapLookup_set_self]
    unfold handleResponse
    rw [show (sendResponse id r callerCfg.channelName now2).id = id from rfl, hpend]
    simp [sendResponse, MT.RESPONSE, MT.ERROR]

/-- Witness for C1 at a concrete input: the echo handler registered for
the bare method "m"; the caller resolves with the request payload. -/
theorem c1_request_resolves_with_handler_result_witness :
    handleRequest interpEcho none
      { emptyState with handlers := [("m", 0)] }
      (request cfg0 emptyState "m" (JSValue.jnum 1) "id1" 5 0).2 1 =
      [sendResponse "id1" (JSValue.jnum 1) cfg0.channelName 1] ∧
    handleResponse (request cfg0 emptyState "m" (JSValue.jnum 1) "id1" 5 0).1
        (sendResponse "id1" (JSValue.jnum 1) cfg0.channelName 1) =
      ({ (request cfg0 emptyState "m" (JSValue.jnum 1) "id1" 5 0).1 with
          pendingRequests :=
            mapDelete "id1" (request cfg0 emptyState "m" (JSValue.jnum 1) "id1" 5 0).1.pendingRequests },
       [{ id := "id1", kind := .resolved (JSValue.jnum 1) }]) :=
  c1_request_resolves_with_handler_result interpEcho cfg0 emptyState
    { emptyState with handlers := [("m", 0)] }
    "m" (JSValue.jnum 1) (JSValue.jnum 1) 0 "id1" 5 0 1 (by decide) rfl

/- ----------------------------------------------------------------- -/
/- C7                                                                 -/
/- ----------------------------------------------------------------- -/

/-- Unfolding equation for `off` with a specific listener when the event
has no registered set: a no-op. -/
theorem off_lookup_none {self : Option String} {st : BridgeState} {e : String} {l : Nat}
    (h : mapLookup (getHandlerKey self e none) st.eventHandlers = none) :
    off self st e (some l) = st := by
  simp only [off]
  rw [h]

/-- Unfolding equation for `off` with a specific listener when the event
has a registered set. -/
theorem off_lookup_some {self : Option String} {st : BridgeState} {e : String} {l : Nat}
    {ls : List Nat}
    (h : mapLookup (getHandlerKey self e none) st.eventHandlers = some ls) :
    off self st e (some l) =
      (if List.filter (fun x => x != l) ls = [] then
        { st with eventHandlers := mapDelete (getHandlerKey self e none) st.eventHandlers }
      else
        { st with eventHandlers := mapSet (getHandlerKey self e none) (List.filter (fun x => x != l) ls) st.eventHandlers }) := by
  simp only [off]
  rw [h]

/-- C7: `off(event)` with no listener argument removes the entire set for
the qualified key; `off(event, l)` removes only `l`, keeping every other
listener and dropping the set once empty; `off` on an event with no
registered listeners is a no-op; keys other than the qualified event key
are never touched. -/
theorem c7_off_semantics (self : Option String) (st : BridgeState) (e : String)
    (l : Nat) (k : String) :
    mapLookup (getHandlerKey self e none) (off self st e none).eventHandlers = none ∧
    (k ≠ getHandlerKey self e none →
      mapLookup k (off self st e none).eventHandlers = mapLookup k st.eventHandlers) ∧
    (∀ ls, mapLookup (getHandlerKey self e none) st.eventHandlers = some ls →
      mapLookup (getHandlerKey self e none) (off self st e (some l)).eventHandlers =
        (if ls.filter (fun x => x != l) = [] then none
         else some (ls.filter (fun x => x != l)))) ∧
    (mapLookup (getHandlerKey self e none) st.eventHandlers = none →
      off self st e (some l) = st) ∧
    (k ≠ getHandlerKey self e none →
      mapLookup k (off self st e (some l)).eventHandlers = mapLookup k st.eventHandlers) := by
  refine ⟨?_, ?_, ?_, ?_, ?_⟩
  · simp [off, mapLookup_delete_self]
  · intro hk
    simp [off, mapLookup_delete_ne _ _ _ (Ne.symm hk)]
  · intro ls hls
    rw [off_lookup_some hls]
    by_cases hc : List.filter (fun x => x != l) ls = []
    · rw [if_pos hc, if_pos hc]
      exact mapLookup_delete_self _ _
    · rw [if_neg hc, if_neg hc]
      exact mapLookup_set_self _ _ _
  · intro hnone
    exact off_lookup_none hnone
  · intro hk
    cases hls : mapLookup (getHandlerKey self e none) st.eventHandlers with
    | none => rw [off_lookup_none hls]
    | some ls =>
        rw [off_lookup_some hls]
        by_cases hc : List.filter (fun x => x != l) ls = []
        · rw [if_pos hc]
          exact mapLookup_delete_ne _ _ _ (Ne.symm hk)
        · rw [if_neg hc]
          exact mapLookup_set_ne _ _ _ _ (Ne.symm hk)

/-- Witness for C7 at a concrete input: two listeners for the bare event
"ev"; removing listener 1 keeps listener 2; the event was registered, so
parts with hypotheses are instantiated at a satisfying state. -/
theorem c7_off_semantics_witness :
    mapLookup "ev" (off none { emptyState with eventHandlers := [("ev", [1, 2])] } "ev"
      (some 1)).eventHandlers = some [2] ∧
    off none emptyState "ev" (some 1) = emptyState ∧
    mapLookup "other" (off none { emptyState with eventHandlers := [("ev", [1, 2])] } "ev"
      none).eventHandlers = mapLookup "other"
        ({ emptyState with eventHandlers := [("ev", [1, 2])] } : BridgeState).eventHandlers := by
  refine ⟨?_, ?_, ?_⟩
  · have h := (c7_off_semantics none { emptyState with eventHandlers := [("ev", [1, 2])] }
      "ev" 1 "other").2.2.1 [1, 2] (by decide)
    simpa using h
  · exact (c7_off_semantics none emptyState "ev" 1 "other").2.2.2.1 (by decide)
  · exact (c7_off_semantics none { emptyState with eventHandlers := [("ev", [1, 2])] }
      "ev" 1 "other").2.1 (by decide)

/- ----------------------------------------------------------------- -/
/- C9                                                                 -/
/- ----------------------------------------------------------------- -/

/-- C9: the constructor applies defaults by truthiness: an empty-string
targetOrigin behaves exactly like the wildcard (same resolved
configuration, every inbound origin accepted, the wildcard passed to
outbound delivery), timeout 0 becomes the default 30000, and debug false
yields the same configuration as debug absent. -/
theorem c9_truthy_defaults :
    (∀ ch, mkConfig { targetOrigin := some "", timeout := some 0, debug := some false } ch =
        mkConfig {} ch) ∧
    ((mkConfig { targetOrigin := some "" } none).targetOrigin = "*") ∧
    (∀ origin, originOk (mkConfig { targetOrigin := some "" } none) origin = true) ∧
    ((mkConfig { timeout := some 0 } none).timeout = 30000) ∧
    (∀ ch, mkConfig { debug := some false } ch = mkConfig {} ch) := by
  refine ⟨fun ch => rfl, rfl, fun origin => ?_, rfl, fun ch => rfl⟩
  simp [originOk, mkConfig]

/- ----------------------------------------------------------------- -/
/- C4                                                                 -/
/- ----------------------------------------------------------------- -/

/-- C4 counterexample: the claim requires a non-empty identifier for an
envelope to be routed, but `isValidMessage` only checks that the
identifier is a string, so the envelope with the empty identifier is
accepted and routed, with an observable effect (an Error reply is sent
back because no handler is registered) instead of the silent discard the
claim demands. -/
theorem c4_counterexample :
    specValidMessage c4EmptyIdRaw = false ∧
    isValidMessage c4EmptyIdRaw = true ∧
    (handleMessage interpEcho cfg0 emptyState "https://peer.example" c4EmptyIdRaw 0).outbound =
      [sendError "" "No handler for method: m" none 0] := by decide

/-- Field shapes guaranteed by a successful `isValidMessage` check. -/
theorem valid_fields {rm : RawMessage} (h : isValidMessage (RawData.obj rm) = true) :
    rm.protocol = JSValue.jstr PROTOCOL_ID ∧ (∃ s, rm.id = JSValue.jstr s) ∧
    (∃ t, rm.type = JSValue.jstr t) ∧ (∃ n, rm.timestamp = JSValue.jnum n) := by
  simp only [isValidMessage, Bool.and_eq_true, beq_iff_eq] at h
  obtain ⟨⟨⟨h1, h2⟩, h3⟩, h4⟩ := h
  refine ⟨h1, ?_, ?_, ?_⟩
  · cases hc : rm.id with
    | jstr s => exact ⟨s, rfl⟩
    | jnum n => rw [hc] at h2; simp [JSValue.isStr] at h2
    | jbool b => rw [hc] at h2; simp [JSValue.isStr] at h2
    | jundef => rw [hc] at h2; simp [JSValue.isStr] at h2
    | jnull => rw [hc] at h2; simp [JSValue.isStr] at h2
  · cases hc : rm.type with
    | jstr t => exact ⟨t, rfl⟩
    | jnum n => rw [hc] at h3; simp [JSValue.isStr] at h3
    | jbool b => rw [hc] at h3; simp [JSValue.isStr] at h3
    | jundef => rw [hc] at h3; simp [JSValue.isStr] at h3
    | jnull => rw [hc] at h3; simp [JSValue.isStr] at h3
  · cases hc : rm.timestamp with
    | jnum n => exact ⟨n, rfl⟩
    | jstr s => rw [hc] at h4; simp [JSValue.isNum] at h4
    | jbool b => rw [hc] at h4; simp [JSValue.isNum] at h4
    | jundef => rw [hc] at h4; simp [JSValue.isNum] at h4
    | jnull => rw [hc] at h4; simp [JSValue.isNum] at h4

/-- Evaluation of `handleMessage` on an accepted object envelope. -/
theorem handleMessage_obj_eq (interp : Nat → JSValue → Except String JSValue)
    (cfg : BridgeConfig) (st : BridgeState) (origin : String) (now : Int)
    (rm : RawMessage) (i t : String) (ts : Int)
    (ho : originOk cfg origin = true) (hv : isValidMessage (RawData.obj rm) = true)
    (hi : rm.id = JSValue.jstr i) (ht : rm.type = JSValue.jstr t)
    (hn : rm.timestamp = JSValue.jnum ts) :
    handleMessage interp cfg st origin (RawData.obj rm) now =
      handleParsed interp cfg st
        { protocol := PROTOCOL_ID, id := i, type := t, method := rm.method,
          channel := rm.channel, data := rm.data, error := rm.error,
          timestamp := ts } now := by
  rcases rm with ⟨pf, idf, tf, mf, cf, df, ef, tsf⟩
  simp only at hi ht hn
  subst hi
  subst ht
  subst hn
  simp [handleMessage, ho, hv]

/-- C4 amended: an inbound raw message passes the routing checks iff the
origin filter accepts it and the envelope is a truthy object carrying the
exact marker, a string identifier (possibly empty), a string kind (not
necessarily a recognized one) and a numeric timestamp; a message failing
the origin or validity check is discarded with no observable effect, and
a validated envelope whose kind is none of the four recognized kinds
falls through the routing switch, likewise with no effect. -/
theorem c4_routing (interp : Nat → JSValue → Except String JSValue) (cfg : BridgeConfig)
    (st : BridgeState) (origin : String) (raw : RawData) (now : Int) :
    (originOk cfg origin = false ∨ isValidMessage raw = false →
      handleMessage interp cfg st origin raw now = noEffect st) ∧
    (isValidMessage raw = true ↔
      ∃ rm : RawMessage, raw = RawData.obj rm ∧
        rm.protocol = JSValue.jstr PROTOCOL_ID ∧
        (∃ s, rm.id = JSValue.jstr s) ∧
        (∃ t, rm.type = JSValue.jstr t) ∧
        (∃ n, rm.timestamp = JSValue.jnum n)) ∧
    (∀ rm t, raw = RawData.obj rm → rm.type = JSValue.jstr t →
      t ≠ MT.REQUEST → t ≠ MT.RESPONSE → t ≠ MT.ERROR → t ≠ MT.EVENT →
      handleMessage interp cfg st origin raw now = noEffect st) := by
  refine ⟨?_, ?_, ?_⟩
  · intro h
    rcases h with h | h
    · simp [handleMessage, h]
    · by_cases ho : originOk cfg origin <;> simp [handleMessage, ho, h]
  · constructor
    · intro hv
      cases raw with
      | prim v => simp [isValidMessage] at hv
      | obj rm => exact ⟨rm, rfl, valid_fields hv⟩
    · rintro ⟨rm, rfl, hp, ⟨s, hs⟩, ⟨t, ht⟩, ⟨n, hn⟩⟩
      simp [isValidMessage, hp, hs, ht, hn, JSValue.isStr, JSValue.isNum]
  · rintro rm t rfl htype h1 h2 h3 h4
    by_cases ho : originOk cfg origin
    · by_cases hv : isValidMessage (RawData.obj rm)
      · obtain ⟨hp, ⟨i, hi⟩, ⟨t2, ht2⟩, ⟨n, hn⟩⟩ := valid_fields hv
        rw [handleMessage_obj_eq interp cfg st origin now rm i t n ho hv hi htype hn]
        simp [handleParsed, h1, h2, h3, h4]
      · simp [handleMessage, ho, hv]
    · simp [handleMessage, ho]

/-- Witness for C4 amended at concrete inputs: a primitive payload is
discarded with no effect, and a validated envelope of unrecognized kind
also produces no effect. -/
theorem c4_routing_witness :
    handleMessage interpEcho cfg0 emptyState "https://peer.example"
      (RawData.prim JSValue.jnull) 0 = noEffect emptyState ∧
    handleMessage interpEcho cfg0 emptyState "https://peer.example"
      c4BogusRaw 0 = noEffect emptyState := by
  constructor
  · exact (c4_routing interpEcho cfg0 emptyState "https://peer.example"
      (RawData.prim JSValue.jnull) 0).1 (Or.inr (by decide))
  · exact (c4_routing interpEcho cfg0 emptyState "https://peer.example"
      c4BogusRaw 0).2.2
      { protocol := .jstr PROTOCOL_ID, id := .jstr "x", type := .jstr "BOGUS",
        method := none, channel := none, data := .jundef, error := none,
        timestamp := .jnum 0 }
      "BOGUS" rfl rfl (by decide) (by decide) (by decide) (by decide)

/- ----------------------------------------------------------------- -/
/- C5                                                                 -/
/- ----------------------------------------------------------------- -/

/-- Keys qualified by distinct non-empty channel names never collide for
one and the same method name. -/
theorem qualifiedKey_inj {a b m : String} (ha : a ≠ "") (hb : b ≠ "")
    (h : getHandlerKeyCh (some a) m = getHandlerKeyCh (some b) m) : a = b := by
  simp only [getHandlerKeyCh, if_neg ha, if_neg hb] at h
  have hd : a.data ++ (':' :: m.data) = b.data ++ (':' :: m.data) := by
    have h2 := congrArg String.data h
    simpa [String.data_append] using h2
  have h3 : a.data = b.data := List.append_left_injective _ hd
  exact congrArg String.mk h3

/-- C5: with distinct non-empty channel names a and b, the a-qualified and
b-qualified keys for the same method never collide, and therefore a
handler registration made through channel a changes nothing about how an
inbound request issued on channel b is dispatched. -/
theorem c5_channel_isolation (interp : Nat → JSValue → Except String JSValue)
    (a b m : String) (ha : a ≠ "") (hb : b ≠ "") (hab : a ≠ b)
    (st : BridgeState) (hid : Nat) (msg : Message) (now : Int)
    (hch : msg.channel = some b) (hm : msg.method = some m) :
    getHandlerKeyCh (some a) m ≠ getHandlerKeyCh (some b) m ∧
    handleRequest interp none (onMethod (some a) st m hid) msg now =
      handleRequest interp none st msg now := by
  have hkey : getHandlerKeyCh (some a) m ≠ getHandlerKeyCh (some b) m :=
    fun h => hab (qualifiedKey_inj ha hb h)
  refine ⟨hkey, ?_⟩
  unfold handleRequest
  rw [hm, hch]
  simp only [Option.getD_some, onMethod]
  rw [show getHandlerKey none m (some b) = getHandlerKeyCh (some b) m from rfl]
  rw [show getHandlerKey (some a) m none = getHandlerKeyCh (some a) m from rfl]
  rw [mapLookup_set_ne _ _ _ _ hkey]

/-- Witness for C5 at a concrete input: registering on channel "a" does
not change the dispatch of a request issued on channel "b". -/
theorem c5_channel_isolation_witness :
    getHandlerKeyCh (some "a") "m" ≠ getHandlerKeyCh (some "b") "m" ∧
    handleRequest interpEcho none (onMethod (some "a") emptyState "m" 3)
        (request (channel cfg0 "b") emptyState "m" JSValue.jnull "id1" 2 0).2 0 =
      handleRequest interpEcho none emptyState
        (request (channel cfg0 "b") emptyState "m" JSValue.jnull "id1" 2 0).2 0 :=
  c5_channel_isolation interpEcho "a" "b" "m" (by decide) (by decide) (by decide)
    emptyState 3 (request (channel cfg0 "b") emptyState "m" JSValue.jnull "id1" 2 0).2 0
    rfl rfl

/- ----------------------------------------------------------------- -/
/- C6                                                                 -/
/- ----------------------------------------------------------------- -/

/-- C6 counterexample: a root-level handler registered for the method
literally named "a:m" (a legal method name, registered without any
channel) yields the key "a:m", which carries the "a:" text; destroying
the channel named "a" therefore removes the root registration, against
the claim that root registrations are left unchanged. -/
theorem c6_counterexample :
    mapLookup "a:m" (onMethod none emptyState "a:m" 7).handlers = some 7 ∧
    mapLookup "a:m" (destroyChannel "a" (onMethod none emptyState "a:m" 7)).1.handlers
      = none := by decide

/-- C6 amended: destroy on the root rejects every pending request with
the destruction error and clears all registries; destroy on a channel
removes exactly the handler and listener keys starting with the text
name:, whichever instance registered them, rejects exactly the pending
requests recorded under that channel name, and leaves every other
pending request (root and siblings included) registered. -/
theorem c6_destroy_scoping (name : String) (st : BridgeState) (k id : String)
    (rec : PendingRecord) :
    (destroyRoot st).1 = emptyState ∧
    (destroyRoot st).2 = st.pendingRequests.map
      (fun kv => { id := kv.1, kind := OutcomeKind.rejected "Bridge destroyed" }) ∧
    mapLookup k (destroyChannel name st).1.handlers =
      (if strStartsWith k (name ++ ":") then none else mapLookup k st.handlers) ∧
    mapLookup k (destroyChannel name st).1.eventHandlers =
      (if strStartsWith k (name ++ ":") then none else mapLookup k st.eventHandlers) ∧
    ((st.pendingRequests.map Prod.fst).Nodup →
      mapLookup id st.pendingRequests = some rec →
      mapLookup id (destroyChannel name st).1.pendingRequests =
        (if rec.channel = some name then none else some rec)) ∧
    (destroyChannel name st).2 =
      (st.pendingRequests.filter (fun kv => kv.2.channel == some name)).map
        (fun kv => { id := kv.1, kind := OutcomeKind.rejected "Channel destroyed" }) := by
  refine ⟨rfl, rfl, ?_, ?_, ?_, rfl⟩
  · have h := mapLookup_filterKey (fun s => !(strStartsWith s (name ++ ":"))) k st.handlers
    by_cases hs : strStartsWith k (name ++ ":")
    · simpa [destroyChannel, hs] using h
    · simpa [destroyChannel, hs] using h
  · have h := mapLookup_filterKey (fun s => !(strStartsWith s (name ++ ":"))) k
      st.eventHandlers
    by_cases hs : strStartsWith k (name ++ ":")
    · simpa [destroyChannel, hs] using h
    · simpa [destroyChannel, hs] using h
  · intro hnd hlook
    have h := mapLookup_filterVal (fun kv => kv.2.channel != some name) id rec
      st.pendingRequests hnd hlook
    by_cases hc : rec.channel = some name
    · simpa [destroyChannel, hc] using h
    · simpa [destroyChannel, hc] using h

/-- Witness for C6 at a concrete input: destroying channel "a" keeps the
sibling channel b pending request and removes the a-qualified handler. -/
theorem c6_destroy_scoping_witness :
    mapLookup "i3" (destroyChannel "a" c6st).1.pendingRequests =
      some { timer := 3, channel := some "b" } ∧
    mapLookup "a:m" (destroyChannel "a" c6st).1.handlers = none := by
  constructor
  · have h := (c6_destroy_scoping "a" c6st "a:m" "i3"
      { timer := 3, channel := some "b" }).2.2.2.2.1 (by decide) (by decide)
    simpa using h
  · have h := (c6_destroy_scoping "a" c6st "a:m" "i3"
      { timer := 3, channel := some "b" }).2.2.1
    simpa using h

/- ----------------------------------------------------------------- -/
/- C10                                                                -/
/- ----------------------------------------------------------------- -/

/-- C10 counterexample: a root handler for the method literally named
":x" has the bare key ":x", which starts with the ":" text, so destroy
on the channel named with the empty string does remove a key, against
the claim that it removes none. -/
theorem c10_counterexample :
    mapLookup ":x" (onMethod none emptyState ":x" 3).handlers = some 3 ∧
    mapLookup ":x" (destroyChannel "" (onMethod none emptyState ":x" 3)).1.handlers
      = none := by decide

/-- C10 amended: the empty channel name qualifies to the bare key, so
registration and removal through channel("") alias the root
registrations, and an inbound request carrying the empty channel is
looked up under the bare key; requests issued on channel("") are
recorded under the empty channel name and its destroy rejects exactly
those; destroy on channel("") removes exactly the keys starting with
":", that is, only keys of methods whose own name begins with ":". -/
theorem c10_empty_channel (m id : String) (st : BridgeState) (h l : Nat) (tm : Nat)
    (p : JSValue) (now : Int) :
    getHandlerKeyCh (some "") m = m ∧
    onMethod (some "") st m h = onMethod none st m h ∧
    listen (some "") st m l = listen none st m l ∧
    (∀ ho : Option Nat, off (some "") st m ho = off none st m ho) ∧
    getHandlerKey none m (some "") = m ∧
    (request (channel cfg0 "") st m p id tm now).2.channel = some "" ∧
    mapLookup id (request (channel cfg0 "") st m p id tm now).1.pendingRequests =
      some { timer := tm, channel := some "" } ∧
    (∀ k2, mapLookup k2 (destroyChannel "" st).1.handlers =
      (if strStartsWith k2 ":" then none else mapLookup k2 st.handlers)) ∧
    (∀ k2, mapLookup k2 (destroyChannel "" st).1.eventHandlers =
      (if strStartsWith k2 ":" then none else mapLookup k2 st.eventHandlers)) ∧
    (destroyChannel "" st).2 =
      (st.pendingRequests.filter (fun kv => kv.2.channel == some "")).map
        (fun kv => { id := kv.1, kind := OutcomeKind.rejected "Channel destroyed" }) := by
  have hpre : (("" : String) ++ ":") = ":" := by decide
  refine ⟨by simp [getHandlerKeyCh], by simp [onMethod, getHandlerKey, getHandlerKeyCh],
    by simp [listen, getHandlerKey, getHandlerKeyCh], ?_,
    by simp [getHandlerKey, getHandlerKeyCh], rfl,
    by simp [request, channel, mkConfig, mapLookup_set_self], ?_, ?_, rfl⟩
  · intro ho
    cases ho with
    | none => simp [off, getHandlerKey, getHandlerKeyCh]
    | some l2 => simp [off, getHandlerKey, getHandlerKeyCh]
  · intro k2
    have hfk := mapLookup_filterKey (fun s => !(strStartsWith s ("" ++ ":"))) k2 st.handlers
    rw [hpre] at hfk
    by_cases hs : strStartsWith k2 ":"
    · simpa [destroyChannel, hpre, hs] using hfk
    · simpa [destroyChannel, hpre, hs] using hfk
  · intro k2
    have hfk := mapLookup_filterKey (fun s => !(strStartsWith s ("" ++ ":"))) k2
      st.eventHandlers
    rw [hpre] at hfk
    by_cases hs : strStartsWith k2 ":"
    · simpa [destroyChannel, hpre, hs] using hfk
    · simpa [destroyChannel, hpre, hs] using hfk

end XFrameBridge
